import Mathlib

/-!
Verification development for the HardwareMonitor desktop widget
(`src/hw_monitor.py`, `src/app/ui/main_window.py`, `src/app/ui/settings_dialog.py`,
`src/app/utils.py`, `src/app/config.py`).

The settings object is a Python dict persisted as JSON, so we embed JSON
values and insertion-ordered dicts (association lists whose operations mirror
Python dict semantics: assignment replaces the first matching key in place or
appends, `dict.update` folds assignments over the other dict's entries in
order, `del` removes the key, membership is key presence).

Python floats are modelled as exact rationals; machine floating point is not
re-modelled because no claim depends on binary rounding.
-/

/-- A JSON value as produced by `json.load` / consumed by `json.dump`.
`null` stands for Python `None`, `num` carries an exact rational standing for
Python ints and floats, `obj` is an insertion-ordered JSON object. -/
inductive JVal where
  | bool (b : Bool)
  | num (q : Rat)
  | str (s : String)
  | null
  | obj (entries : List (String × JVal))

/-- An insertion-ordered JSON object / Python dict body. -/
abbrev JObj := List (String × JVal)

/-- Python `d[k]` / `d.get(k)`: the value at the first (for well-formed dicts,
only) occurrence of the key. -/
def jLookup : JObj → String → Option JVal
  | [], _ => none
  | (k, v) :: rest, key => if k = key then some v else jLookup rest key

/-- Python `d[k] = v`: replace the value at an existing key in place, else
append the new binding (dict insertion order). -/
def jSetKey : JObj → String → JVal → JObj
  | [], key, v => [(key, v)]
  | (k, w) :: rest, key, v =>
      if k = key then (k, v) :: rest else (k, w) :: jSetKey rest key v

/-- Python `del d[k]`. -/
def jRemoveKey (d : JObj) (key : String) : JObj :=
  d.filter (fun kv => kv.1 != key)

/-- Python `k in d`. -/
def jHasKey (d : JObj) (key : String) : Bool :=
  (jLookup d key).isSome

/-- Python `d.update(other)`: assign every entry of `other` into `d`, in
order (a shallow overlay — nested dict values are replaced wholesale). -/
def dictUpdate (d other : JObj) : JObj :=
  other.foldl (fun acc kv => jSetKey acc kv.1 kv.2) d

/-- Python `d.get(k, default)`. -/
def jGetD (d : JObj) (key : String) (dflt : JVal) : JVal :=
  (jLookup d key).getD dflt

/-- Python truthiness of a JSON value (used where a looked-up value is passed
to a boolean sink such as `setVisible` or an `if`). -/
def truthy : JVal → Bool
  | .bool b => b
  | .num q => if q = 0 then false else true
  | .str s => if s = "" then false else true
  | .null => false
  | .obj [] => false
  | .obj (_ :: _) => true

/-- `visibility.get(key, True)` as a boolean, the read pattern used by
`apply_visibility_settings` and `SettingsDialog.init_ui`. -/
def visGet (vis : JObj) (key : String) : Bool :=
  truthy (jGetD vis key (JVal.bool true))

/-- The default `visibility` sub-dict
(`src/app/ui/main_window.py` lines 68-72, `src/hw_monitor.py` lines 291-295). -/
def defaultVisibility : JObj :=
  [("cpu_group", JVal.bool true), ("ram_group", JVal.bool true),
   ("gpu_groups", JVal.bool true), ("cpu_usage", JVal.bool true),
   ("cpu_temp", JVal.bool true), ("cpu_freq", JVal.bool true),
   ("gpu_usage", JVal.bool true), ("gpu_temp", JVal.bool true),
   ("gpu_vram", JVal.bool true)]

/-- The default settings dict of `src/app/ui/main_window.py` lines 64-73. -/
def defaultSettingsMW : JObj :=
  [("refresh_interval", JVal.num 1500), ("opacity", JVal.num 1),
   ("always_on_top", JVal.bool true), ("click_through", JVal.bool false),
   ("theme", JVal.str "dark"), ("first_run_completed", JVal.bool false),
   ("window_pos_x", JVal.null), ("window_pos_y", JVal.null),
   ("visibility", JVal.obj defaultVisibility)]

/-- The default settings dict of `src/hw_monitor.py` lines 284-296
(no window-position keys). -/
def defaultSettingsHW : JObj :=
  [("refresh_interval", JVal.num 1500), ("opacity", JVal.num 1),
   ("always_on_top", JVal.bool true), ("click_through", JVal.bool false),
   ("theme", JVal.str "dark"), ("first_run_completed", JVal.bool false),
   ("visibility", JVal.obj defaultVisibility)]

/-- State of the persisted settings file as seen by `load_settings`:
absent, present but failing to parse as JSON (`json.JSONDecodeError`), or
present and parsed to a JSON object. -/
inductive FileState where
  | absent
  | present (parsed : Option JObj)

/-- `SystemMonitorApp.load_settings`
(`src/app/ui/main_window.py` lines 195-207, `src/hw_monitor.py` lines 330-344;
the two bodies are identical up to the breadth of the caught exception, which
our `Option`-valued parse result already models). Starting from the in-memory
defaults: if the file is absent, only `first_run_completed` is forced to
`False`; if parsing raises, the exception is logged and the settings are left
untouched (the raise happens before `update` runs); on success the parsed
object is shallow-`update`d over the defaults and then `click_through` is
unconditionally forced to `False`. -/
def load_settings (defaults : JObj) (file : FileState) : JObj :=
  match file with
  | .absent => jSetKey defaults "first_run_completed" (JVal.bool false)
  | .present none => defaults
  | .present (some loaded) =>
      jSetKey (dictUpdate defaults loaded) "click_through" (JVal.bool false)

/-- `SystemMonitorApp.save_settings` of `src/app/ui/main_window.py`
lines 209-219: the serialized copy drops `click_through` only when the save
was not triggered by a window-drag move (`move == False`). Returns the object
handed to `json.dump`. -/
def save_settings (settings : JObj) (move : Bool) : JObj :=
  if jHasKey settings "click_through" && !move then
    jRemoveKey settings "click_through"
  else
    settings

/-- `SystemMonitorApp.save_settings` of `src/hw_monitor.py` lines 347-356:
no `move` parameter, `click_through` is always dropped from the serialized
copy. -/
def save_settingsHW (settings : JObj) : JObj :=
  if jHasKey settings "click_through" then
    jRemoveKey settings "click_through"
  else
    settings

/-- The in-memory `settings['visibility']` sub-dict (empty object if the key
is missing or not an object). -/
def visSub (settings : JObj) : JObj :=
  match jLookup settings "visibility" with
  | some (.obj v) => v
  | _ => []

/-- `settings.get('first_run_completed', False)` as the boolean tested by the
first-run guard in `__init__`. -/
def firstRunFlag (settings : JObj) : Bool :=
  truthy (jGetD settings "first_run_completed" (JVal.bool false))

/-- Outcome of the first-run portion of one process start: the in-memory
settings afterwards, the object written to the settings file by
`show_first_run_message`'s save (`none` when no such save happened), and how
many first-run message boxes were shown. -/
structure LaunchOutcome where
  settings : JObj
  savedFile : Option JObj
  messageCount : Nat

/-- The first-run slice of `SystemMonitorApp.__init__`
(`src/app/ui/main_window.py` lines 74 and 102-103 with
`show_first_run_message` lines 424-431; `src/hw_monitor.py` lines 297,
326-327 and 715-729): load the settings, and if `first_run_completed` is not
truthy, show the message box once, set the flag to `True` and save (a plain
save, `move=False`, which strips `click_through`). -/
def launch (defaults : JObj) (file : FileState) : LaunchOutcome :=
  let s := load_settings defaults file
  if firstRunFlag s then
    { settings := s, savedFile := none, messageCount := 0 }
  else
    let s2 := jSetKey s "first_run_completed" (JVal.bool true)
    { settings := s2, savedFile := some (save_settings s2 false), messageCount := 1 }

/-- Per-device VRAM percent of `src/hw_monitor.py` line 604:
`(memory.used / memory.total) * 100 if memory.total > 0 else 0`. -/
def vram_percent (used total : Nat) : Rat :=
  if total > 0 then ((used : Rat) / (total : Rat)) * 100 else 0

/-- Per-device VRAM percent of `src/app/ui/main_window.py` line 292:
`mem.used/mem.total*100` with no guard; Python raises `ZeroDivisionError`
when `mem.total` is 0, modelled as `none`. -/
def vram_percent_mw (used total : Nat) : Option Rat :=
  if total = 0 then none else some (((used : Rat) / (total : Rat)) * 100)

/-- Round-half-even on an exact rational, the rounding Python's fixed-point
float formatting performs. -/
def roundHalfEven (q : Rat) : Int :=
  let n := q.floor
  let frac := q - (n : Rat)
  if frac < 1 / 2 then n
  else if 1 / 2 < frac then n + 1
  else if n % 2 = 0 then n else n + 1

/-- Python `f"{x:.0f}"` on a nonnegative value. -/
def fmt0 (q : Rat) : String :=
  toString (roundHalfEven q)

/-- Python `f"{x:.1f}"` on a nonnegative value. -/
def fmt1 (q : Rat) : String :=
  let m := roundHalfEven (q * 10)
  toString (m / 10) ++ "." ++ toString (m % 10)

/-- Bytes to mebibytes, `src/hw_monitor.py` lines 602-603
(`memory.total / (1024**2)`). -/
def mbOf (bytes : Nat) : Rat :=
  (bytes : Rat) / 1048576

/-- The VRAM label text of `src/hw_monitor.py` line 605. -/
def vramText (used total : Nat) : String :=
  "VRAM: " ++ fmt0 (mbOf used) ++ " MB / " ++ fmt0 (mbOf total) ++ " MB ("
    ++ fmt1 (vram_percent used total) ++ "%)"

/-- The outcome of the three per-device NVML reads of one tick for one GPU
(`nvmlDeviceGetUtilizationRates`, `nvmlDeviceGetTemperature`,
`nvmlDeviceGetMemoryInfo`), each independently fallible with `NVMLError`
(`none`). `util` is the integer `util.gpu` percent, `temp` the integer
temperature, `mem` the `(used, total)` byte counts. -/
structure GpuReadResult where
  util : Option Nat
  temp : Option Nat
  mem : Option (Nat × Nat)

/-- The text of one GPU group's three labels after a tick. -/
structure GpuLabels where
  usage : String
  temp : String
  vram : String

/-- The error sentinel labels set by the `except NVMLError` handler of
`src/hw_monitor.py` lines 607-612. -/
def gpuErrorLabels : GpuLabels :=
  { usage := "Usage: Error", temp := "Temp: Error", vram := "VRAM: Error" }

/-- The labels written by a fully successful pass of
`src/hw_monitor.py` lines 593-605. -/
def gpuSuccessLabels (util temp memUsed memTotal : Nat) : GpuLabels :=
  { usage := "Usage: " ++ toString util ++ "%"
  , temp := "Temp: " ++ toString temp ++ "°C"
  , vram := vramText memUsed memTotal }

/-- One device's labels after one tick, `src/hw_monitor.py` lines 591-612:
the three reads run in sequence inside one `try`; the first `NVMLError`
jumps to the handler, which overwrites all three labels with the error
sentinel (so any label text written earlier in the same pass is replaced). -/
def updateGpuDevice (r : GpuReadResult) : GpuLabels :=
  match r.util with
  | none => gpuErrorLabels
  | some u =>
    match r.temp with
    | none => gpuErrorLabels
    | some t =>
      match r.mem with
      | none => gpuErrorLabels
      | some (used, total) => gpuSuccessLabels u t used total

/-- The GPU portion of `SystemMonitorApp.update_stats`
(`src/hw_monitor.py` lines 590-612): iterate over the startup-enumerated
device list, handling each device's reads independently — the handler is
inside the loop body, so a failing device does not abort the loop. -/
def update_stats_gpu (reads : List GpuReadResult) : List GpuLabels :=
  reads.map updateGpuDevice

/-- The widget-visible flags touched by `apply_visibility_settings`. The GPU
lists are indexed by the device order fixed at startup; each device has a
group box flag and an (usage, temp, vram) label flag triple. -/
structure WidgetState where
  cpuGroupVisible : Bool
  ramGroupVisible : Bool
  gpuGroupVisible : List Bool
  cpuUsageVisible : Bool
  cpuTempVisible : Bool
  cpuFreqVisible : Bool
  gpuSubVisible : List (Bool × Bool × Bool)

/-- `SystemMonitorApp.apply_visibility_settings`
(`src/hw_monitor.py` lines 662-682, `src/app/ui/main_window.py` lines
328-347): every group and CPU label is set from `visibility.get(key, True)`;
all GPU group boxes are set to the `gpu_groups` flag; the GPU sub-labels are
re-set from their own flags only when the GPU section is shown, otherwise
their own widget flags are left as they were. -/
def apply_visibility_settings (st : WidgetState) (vis : JObj) : WidgetState :=
  let showGpus := visGet vis "gpu_groups"
  { cpuGroupVisible := visGet vis "cpu_group"
  , ramGroupVisible := visGet vis "ram_group"
  , gpuGroupVisible := st.gpuGroupVisible.map (fun _ => showGpus)
  , cpuUsageVisible := visGet vis "cpu_usage"
  , cpuTempVisible := visGet vis "cpu_temp"
  , cpuFreqVisible := visGet vis "cpu_freq"
  , gpuSubVisible :=
      if showGpus then
        st.gpuSubVisible.map
          (fun _ => (visGet vis "gpu_usage", visGet vis "gpu_temp", visGet vis "gpu_vram"))
      else
        st.gpuSubVisible }

/-- A GPU usage label is on screen iff its group box is visible and its own
widget flag is set (Qt shows a child widget only when every ancestor is
visible). Out-of-range device indices are never shown. -/
def gpuUsageShown (st : WidgetState) (i : Nat) : Bool :=
  st.gpuGroupVisible.getD i false && (st.gpuSubVisible.getD i (true, true, true)).1

/-- As `gpuUsageShown`, for the temperature label. -/
def gpuTempShown (st : WidgetState) (i : Nat) : Bool :=
  st.gpuGroupVisible.getD i false && (st.gpuSubVisible.getD i (true, true, true)).2.1

/-- As `gpuUsageShown`, for the VRAM label. -/
def gpuVramShown (st : WidgetState) (i : Nat) : Bool :=
  st.gpuGroupVisible.getD i false && (st.gpuSubVisible.getD i (true, true, true)).2.2

/-- The keys of `SettingsDialog.visibility_checkboxes` in construction order
(`src/app/ui/settings_dialog.py` lines 118-124). -/
def visibility_checkbox_keys : List String :=
  ["cpu_group", "ram_group", "gpu_groups", "cpu_usage", "cpu_temp", "cpu_freq",
   "gpu_usage", "gpu_temp", "gpu_vram"]

/-- The visibility dict built by `SettingsDialog.apply_settings`
(`src/app/ui/settings_dialog.py` line 208, `src/hw_monitor.py` line 262):
`{key: checkbox.isChecked() for key, checkbox in self.visibility_checkboxes.items()}`,
a comprehension over the nine checkboxes; `checked` gives each checkbox's
state. -/
def apply_settings_visibility (checked : String → Bool) : JObj :=
  visibility_checkbox_keys.map (fun k => (k, JVal.bool (checked k)))

/-- `config.APP_NAME` (`src/app/config.py` line 7). -/
def APP_NAME : String := "R.A.P.L. GROUP Monitor"

/-- `config.TASK_NAME` (`src/app/config.py` line 9). -/
def TASK_NAME : String := "RAPL_GROUP_Monitor_Startup"

/-- `os.path.basename` on Windows paths (splits on both separators);
an external library call used by `set_startup`. -/
def basename (p : String) : String :=
  (((p.splitOn "\\").getLastD "").splitOn "/").getLastD ""

/-- The `schtasks /create` command line of `src/app/ui/main_window.py`
lines 375 and 381. -/
def createCmd (destPath : String) : String :=
  "schtasks /create /tn \"" ++ TASK_NAME ++ "\" /tr \"\"" ++ destPath
    ++ "\"\" /sc onlogon /rl highest /f"

/-- The `schtasks /delete` command line of `src/app/ui/main_window.py`
line 384. -/
def deleteCmd : String :=
  "schtasks /delete /tn \"" ++ TASK_NAME ++ "\" /f"

/-- The externally observable actions `set_startup` can perform, in order. -/
inductive StartupEffect where
  | warnMsg (text : String)
  | infoMsg (text : String)
  | criticalMsg (text : String)
  | revertCheckbox
  | makeDir (path : String)
  | copyFile (src dst : String)
  | runCommand (cmd : String)
  | spawnProcess (path : String)
  | quitApp

/-- Effects that change something outside the dialog: directory creation,
file copy, external command invocation, process spawn or app exit. Message
boxes and the checkbox revert are pure UI. -/
def StartupEffect.isMutating : StartupEffect → Bool
  | .makeDir _ => true
  | .copyFile _ _ => true
  | .runCommand _ => true
  | .spawnProcess _ => true
  | .quitApp => true
  | _ => false

/-- The environment `set_startup` reads: `is_admin()`, `sys.frozen`, the
`ProgramFiles` directory, `os.path.abspath(sys.executable)`, and whether the
fallible external steps (`shutil.copy`, `subprocess.run(..., check=True)`)
succeed. `os.makedirs(..., exist_ok=True)` is assumed to succeed. -/
structure StartupEnv where
  isAdm : Bool
  frozen : Bool
  programFiles : String
  sourcePath : String
  copyOk : Bool
  schtasksOk : Bool

/-- `SystemMonitorApp.set_startup` (`src/app/ui/main_window.py` lines
355-389) as the ordered list of effects it performs. Without admin rights or
outside the frozen binary it warns and reverts the checkbox before touching
anything. Otherwise, enabling from outside the install directory copies the
executable there, registers the task, announces the restart, spawns the
copy and quits; enabling in place only registers the task; disabling removes
it. Any exception from the copy or the command ends in a critical message
box plus checkbox revert (the exception text is elided from the modelled
message). -/
def set_startup (env : StartupEnv) (enable : Bool) : List StartupEffect :=
  if !env.isAdm || !env.frozen then
    [StartupEffect.warnMsg
        (if !env.isAdm then "Administrator privileges are required."
         else "This feature only works for the packaged (.exe) application."),
     StartupEffect.revertCheckbox]
  else
    let installDir := env.programFiles ++ "\\" ++ APP_NAME
    let destPath := installDir ++ "\\" ++ basename env.sourcePath
    if enable then
      if env.sourcePath.toLower != destPath.toLower then
        if !env.copyOk then
          [StartupEffect.makeDir installDir,
           StartupEffect.criticalMsg "Failed to modify startup task",
           StartupEffect.revertCheckbox]
        else if !env.schtasksOk then
          [StartupEffect.makeDir installDir,
           StartupEffect.copyFile env.sourcePath destPath,
           StartupEffect.runCommand (createCmd destPath),
           StartupEffect.criticalMsg "Failed to modify startup task",
           StartupEffect.revertCheckbox]
        else
          [StartupEffect.makeDir installDir,
           StartupEffect.copyFile env.sourcePath destPath,
           StartupEffect.runCommand (createCmd destPath),
           StartupEffect.infoMsg
             ("App moved to:\n" ++ destPath
               ++ "\n\nIt will now restart from the new location."),
           StartupEffect.spawnProcess destPath,
           StartupEffect.quitApp]
      else
        if env.schtasksOk then
          [StartupEffect.runCommand (createCmd destPath)]
        else
          [StartupEffect.runCommand (createCmd destPath),
           StartupEffect.criticalMsg "Failed to modify startup task",
           StartupEffect.revertCheckbox]
    else
      if env.schtasksOk then
        [StartupEffect.runCommand deleteCmd,
         StartupEffect.infoMsg "Startup task has been removed."]
      else
        [StartupEffect.runCommand deleteCmd,
         StartupEffect.criticalMsg "Failed to modify startup task",
         StartupEffect.revertCheckbox]

/-- A concrete three-device tick in which device 1's temperature read throws
`NVMLError` while devices 0 and 2 read successfully. -/
def c5demoReads : List GpuReadResult :=
  [⟨some 13, some 55, some (1073741824, 8589934592)⟩,
   ⟨some 99, none, some (1073741824, 8589934592)⟩,
   ⟨some 7, some 40, some (536870912, 8589934592)⟩]

/-- A concrete two-GPU widget state with every flag visible. -/
def c7demoState : WidgetState :=
  { cpuGroupVisible := true, ramGroupVisible := true,
    gpuGroupVisible := [true, true], cpuUsageVisible := true,
    cpuTempVisible := true, cpuFreqVisible := true,
    gpuSubVisible := [(true, true, true), (true, true, true)] }

/-- A visibility dict with `gpu_groups` off but every GPU sub-element flag
individually on. -/
def c7demoVis : JObj :=
  [("gpu_groups", JVal.bool false), ("gpu_usage", JVal.bool true),
   ("gpu_temp", JVal.bool true), ("gpu_vram", JVal.bool true)]

/-- A concrete environment lacking admin rights while running the packaged
binary. -/
def c8demoEnv : StartupEnv :=
  { isAdm := false, frozen := true, programFiles := "C:\\Program Files",
    sourcePath := "C:\\Users\\dev\\hw_monitor.exe", copyOk := true,
    schtasksOk := true }

namespace Lemmas

theorem jLookup_setKey_self (d : JObj) (key : String) (v : JVal) :
    jLookup (jSetKey d key v) key = some v := by
  induction d with
  | nil => simp [jSetKey, jLookup]
  | cons kv rest ih =>
      obtain ⟨k, w⟩ := kv
      by_cases h : k = key
      · simp [jSetKey, jLookup, h]
      · simp [jSetKey, jLookup, h, ih]

theorem jLookup_setKey_ne (d : JObj) (key other : String) (v : JVal)
    (h : other ≠ key) : jLookup (jSetKey d key v) other = jLookup d other := by
  induction d with
  | nil => simp [jSetKey, jLookup, Ne.symm h]
  | cons kv rest ih =>
      obtain ⟨k, w⟩ := kv
      by_cases hk : k = key
      · subst hk
        simp [jSetKey, jLookup, Ne.symm h]
      · simp [jSetKey, jLookup, hk, ih]

theorem jLookup_removeKey_self (d : JObj) (key : String) :
    jLookup (jRemoveKey d key) key = none := by
  induction d with
  | nil => rfl
  | cons kv rest ih =>
      obtain ⟨k, w⟩ := kv
      by_cases h : k = key
      · simpa [jRemoveKey, h] using ih
      · simpa [jRemoveKey, jLookup, h] using ih

theorem jLookup_of_hasKey_false (d : JObj) (key : String)
    (h : jHasKey d key = false) : jLookup d key = none := by
  unfold jHasKey at h
  exact Option.not_isSome_iff_eq_none.mp (by simp [h])

theorem get?_map {α β : Type} (f : α → β) (l : List α) (i : Nat) :
    (l.map f).get? i = (l.get? i).map f := by
  induction l generalizing i with
  | nil => rfl
  | cons a t ih =>
      cases i with
      | zero => rfl
      | succ n => exact ih n

theorem getD_map_const {α : Type} (l : List α) (i : Nat) (b : Bool) :
    (l.map (fun _ => b)).getD i b = b := by
  induction l generalizing i with
  | nil => rfl
  | cons a t ih =>
      cases i with
      | zero => rfl
      | succ n => exact ih n

theorem jLookup_mapped_keys (keys : List String) (f : String → JVal)
    (k : String) (hk : k ∈ keys) :
    jLookup (keys.map (fun x => (x, f x))) k = some (f k) := by
  induction keys with
  | nil => cases hk
  | cons a t ih =>
      by_cases h : a = k
      · subst h
        simp [jLookup]
      · rcases List.mem_cons.mp hk with h1 | h1
        · exact absurd h1.symm h
        · simp [jLookup, h, ih h1]

theorem updateGpuDevice_fail (r : GpuReadResult)
    (h : r.util = none ∨ r.temp = none ∨ r.mem = none) :
    updateGpuDevice r = gpuErrorLabels := by
  obtain ⟨ru, rt, rm⟩ := r
  cases ru with
  | none => rfl
  | some u =>
      cases rt with
      | none => rfl
      | some t =>
          cases rm with
          | none => rfl
          | some p => rcases h with h | h | h <;> exact Option.noConfusion h

end Lemmas

/-- Claim C1 (counterexample): `save_settings` as written in
`src/app/ui/main_window.py` does NOT remove `click_through` from the
serialized copy on a drag-move save: with `move=True` and `click_through`
set to `True` in the in-memory settings, the object handed to `json.dump`
still contains `click_through=true`. -/
theorem c1_counterexample :
    jLookup
      (save_settings (jSetKey defaultSettingsMW "click_through" (JVal.bool true)) true)
      "click_through" = some (JVal.bool true) := rfl

/-- Claim C1 (amended): `save_settings` strips `click_through` only when
`move=False`; a drag-move save keeps the key. But every drag-move save site
(`mouseMoveEvent`) runs only while `click_through` is false, and
`src/hw_monitor.py`'s `save_settings` always strips the key, so an object
written by either implementation never contains `click_through=true`. -/
theorem c1_saved_click_through_never_true (s : JObj) (m : Bool)
    (hdrag : m = true → jLookup s "click_through" = some (JVal.bool false)) :
    jLookup (save_settings s m) "click_through" ≠ some (JVal.bool true) ∧
    jLookup (save_settingsHW s) "click_through" ≠ some (JVal.bool true) := by
  constructor
  · cases m with
    | true =>
        have hs : save_settings s true = s := by simp [save_settings]
        rw [hs, hdrag rfl]
        intro hcontra
        injection hcontra with h1
        injection h1 with h2
        exact Bool.noConfusion h2
    | false =>
        cases hk : jHasKey s "click_through" with
        | true =>
            have hs : save_settings s false = jRemoveKey s "click_through" := by
              simp [save_settings, hk]
            rw [hs, Lemmas.jLookup_removeKey_self]
            exact fun hcontra => Option.noConfusion hcontra
        | false =>
            have hs : save_settings s false = s := by
              simp [save_settings, hk]
            rw [hs, Lemmas.jLookup_of_hasKey_false s _ hk]
            exact fun hcontra => Option.noConfusion hcontra
  · cases hk : jHasKey s "click_through" with
    | true =>
        have hs : save_settingsHW s = jRemoveKey s "click_through" := by
          simp [save_settingsHW, hk]
        rw [hs, Lemmas.jLookup_removeKey_self]
        exact fun hcontra => Option.noConfusion hcontra
    | false =>
        have hs : save_settingsHW s = s := by
          simp [save_settingsHW, hk]
        rw [hs, Lemmas.jLookup_of_hasKey_false s _ hk]
        exact fun hcontra => Option.noConfusion hcontra

/-- Claim C1 witness: the amended statement at the default settings and a
non-drag save. -/
theorem c1_saved_click_through_never_true_witness :
    jLookup (save_settings defaultSettingsMW false) "click_through"
        ≠ some (JVal.bool true) ∧
    jLookup (save_settingsHW defaultSettingsMW) "click_through"
        ≠ some (JVal.bool true) :=
  c1_saved_click_through_never_true defaultSettingsMW false
    (fun h => Bool.noConfusion h)

/-- Claim C2 (counterexample): loading a file whose `visibility` object is
only `{"cpu_usage": false}` does NOT leave the other visibility keys at
`true` in the in-memory settings: `dict.update` replaces the nested
`visibility` dict wholesale, so `cpu_group` is simply absent afterwards. -/
theorem c2_counterexample :
    jLookup
      (visSub (load_settings defaultSettingsMW
        (FileState.present (some [("visibility", JVal.obj [("cpu_usage", JVal.bool false)])]))))
      "cpu_group" = none ∧
    jLookup
      (visSub (load_settings defaultSettingsMW
        (FileState.present (some [("visibility", JVal.obj [("cpu_usage", JVal.bool false)])]))))
      "cpu_group" ≠ some (JVal.bool true) :=
  ⟨rfl, fun hcontra => Option.noConfusion hcontra⟩

/-- Claim C2 (amended): after loading a file whose `visibility` is the
object `v`, the in-memory `visibility` is exactly `v` (wholesale
replacement, not a per-key merge); a key absent from `v` is absent from the
in-memory mapping, but every consumer reads it through
`visibility.get(key, True)`, so its effective value is still `true`. -/
theorem c2_visibility_replaced_wholesale (v : JObj) (k : String)
    (hk : jLookup v k = none) :
    jLookup
      (visSub (load_settings defaultSettingsMW
        (FileState.present (some [("visibility", JVal.obj v)])))) k = none ∧
    visGet
      (visSub (load_settings defaultSettingsMW
        (FileState.present (some [("visibility", JVal.obj v)])))) k = true := by
  have hvis : jLookup (load_settings defaultSettingsMW
      (FileState.present (some [("visibility", JVal.obj v)]))) "visibility"
      = some (JVal.obj v) := by
    show jLookup (jSetKey (dictUpdate defaultSettingsMW [("visibility", JVal.obj v)])
        "click_through" (JVal.bool false)) "visibility" = some (JVal.obj v)
    rw [Lemmas.jLookup_setKey_ne _ _ _ _ (by decide)]
    show jLookup (jSetKey defaultSettingsMW "visibility" (JVal.obj v)) "visibility" = _
    exact Lemmas.jLookup_setKey_self _ _ _
  have hsub : visSub (load_settings defaultSettingsMW
      (FileState.present (some [("visibility", JVal.obj v)]))) = v := by
    unfold visSub
    rw [hvis]
  rw [hsub]
  exact ⟨hk, by simp [visGet, jGetD, hk, truthy]⟩

/-- Claim C2 witness: the amended statement at the partial file
`{"visibility": {"cpu_usage": false}}` and the absent key `cpu_group`. -/
theorem c2_visibility_replaced_wholesale_witness :
    jLookup
      (visSub (load_settings defaultSettingsMW
        (FileState.present (some [("visibility", JVal.obj [("cpu_usage", JVal.bool false)])]))))
      "ram_group" = none ∧
    visGet
      (visSub (load_settings defaultSettingsMW
        (FileState.present (some [("visibility", JVal.obj [("cpu_usage", JVal.bool false)])]))))
      "ram_group" = true :=
  c2_visibility_replaced_wholesale [("cpu_usage", JVal.bool false)] "ram_group" rfl

/-- Claim C3: `src/hw_monitor.py` line 604 guards `total=0` and reports 0,
and for positive totals computes `used/total*100`; `src/app/ui/main_window.py`
line 292 has no such guard, so `total=0` raises `ZeroDivisionError` there
(modelled as `none`) instead of reporting 0. -/
theorem c3_vram_zero_guard (u t : Nat) :
    vram_percent u 0 = 0 ∧
    vram_percent_mw u 0 = none ∧
    vram_percent u (t + 1) = ((u : Rat) / ((t + 1 : Nat) : Rat)) * 100 ∧
    vram_percent_mw u (t + 1) = some (((u : Rat) / ((t + 1 : Nat) : Rat)) * 100) := by
  refine ⟨?_, ?_, ?_, ?_⟩
  · simp [vram_percent]
  · simp [vram_percent_mw]
  · simp [vram_percent]
  · simp [vram_percent_mw]

/-- Claim C4: for every settings file that parses to an object — in
particular one containing `click_through: true` — `load_settings` forces the
in-memory `click_through` to `false` after the merge. -/
theorem c4_load_forces_click_through_false (defaults loaded : JObj) :
    jLookup (load_settings defaults (FileState.present (some loaded)))
      "click_through" = some (JVal.bool false) :=
  Lemmas.jLookup_setKey_self _ _ _

/-- Claim C5: the per-tick GPU update handles each device independently:
the device list length is preserved (the tick is never aborted), each
device's labels are a function of that device's own reads alone, a failing
device gets the error sentinel on all three labels, and a succeeding device
gets labels formatted from its own reading. -/
theorem c5_gpu_device_isolation (reads : List GpuReadResult) (i : Nat) :
    (update_stats_gpu reads).length = reads.length ∧
    (∀ r, reads.get? i = some r →
      (update_stats_gpu reads).get? i = some (updateGpuDevice r)) ∧
    (∀ r, reads.get? i = some r →
      (r.util = none ∨ r.temp = none ∨ r.mem = none) →
      (update_stats_gpu reads).get? i = some gpuErrorLabels) ∧
    (∀ u t mu mt, reads.get? i = some ⟨some u, some t, some (mu, mt)⟩ →
      (update_stats_gpu reads).get? i = some (gpuSuccessLabels u t mu mt)) := by
  refine ⟨List.length_map _ _, ?_, ?_, ?_⟩
  · intro r hr
    simp only [update_stats_gpu]
    rw [Lemmas.get?_map, hr]
    rfl
  · intro r hr hfail
    simp only [update_stats_gpu]
    rw [Lemmas.get?_map, hr]
    simp [Lemmas.updateGpuDevice_fail r hfail]
  · intro u t mu mt hr
    simp only [update_stats_gpu]
    rw [Lemmas.get?_map, hr]
    rfl

/-- Claim C5 witness: in a three-device tick where device 1's temperature
read throws, device 1 shows the error sentinel while devices 0 and 2 show
their own readings and the tick covers all three devices. -/
theorem c5_gpu_device_isolation_witness :
    (update_stats_gpu c5demoReads).get? 1 = some gpuErrorLabels ∧
    (update_stats_gpu c5demoReads).get? 0
        = some (gpuSuccessLabels 13 55 1073741824 8589934592) ∧
    (update_stats_gpu c5demoReads).get? 2
        = some (gpuSuccessLabels 7 40 536870912 8589934592) ∧
    (update_stats_gpu c5demoReads).length = 3 :=
  ⟨(c5_gpu_device_isolation c5demoReads 1).2.2.1 _ rfl (Or.inr (Or.inl rfl)),
   (c5_gpu_device_isolation c5demoReads 0).2.2.2 13 55 1073741824 8589934592 rfl,
   (c5_gpu_device_isolation c5demoReads 2).2.2.2 7 40 536870912 8589934592 rfl,
   (c5_gpu_device_isolation c5demoReads 0).1⟩

/-- Claim C6: when the settings file is present but fails to parse as JSON,
`load_settings` leaves the in-memory settings exactly equal to the defaults
(the raise happens before `update` runs; the handler only logs). -/
theorem c6_parse_failure_keeps_defaults (defaults : JObj) :
    load_settings defaults (FileState.present none) = defaults := rfl

/-- Claim C7: if the visibility mapping has `gpu_groups = false`, no GPU
sub-element of any device is shown after `apply_visibility_settings`,
regardless of the sub-elements' own flags and of the previous widget
state. -/
theorem c7_gpu_group_gates_children (st : WidgetState) (vis : JObj) (i : Nat)
    (h : jLookup vis "gpu_groups" = some (JVal.bool false)) :
    gpuUsageShown (apply_visibility_settings st vis) i = false ∧
    gpuTempShown (apply_visibility_settings st vis) i = false ∧
    gpuVramShown (apply_visibility_settings st vis) i = false := by
  have hg : visGet vis "gpu_groups" = false := by
    simp [visGet, jGetD, h, truthy]
  have hgrp : (apply_visibility_settings st vis).gpuGroupVisible.getD i false = false := by
    simp only [apply_visibility_settings]
    simp only [hg]
    exact Lemmas.getD_map_const _ _ _
  have hx : ∀ b : Bool,
      ((apply_visibility_settings st vis).gpuGroupVisible.getD i false && b) = false := by
    intro b
    rw [hgrp]
    exact Bool.false_and b
  exact ⟨hx _, hx _, hx _⟩

/-- Claim C7 witness: a two-device state with everything visible and a
mapping turning only `gpu_groups` off while every GPU sub-flag is on. -/
theorem c7_gpu_group_gates_children_witness :
    gpuUsageShown (apply_visibility_settings c7demoState c7demoVis) 0 = false ∧
    gpuTempShown (apply_visibility_settings c7demoState c7demoVis) 0 = false ∧
    gpuVramShown (apply_visibility_settings c7demoState c7demoVis) 0 = false :=
  c7_gpu_group_gates_children c7demoState c7demoVis 0 rfl

/-- Claim C8: invoking the auto-start enable action without admin rights or
outside the packaged binary performs no mutating effect (no directory
creation, file copy, task-scheduler command, spawn or quit): it only shows
the permission/capability warning and reverts the checkbox. -/
theorem c8_enable_requires_admin_and_frozen (env : StartupEnv)
    (h : env.isAdm = false ∨ env.frozen = false) :
    ((set_startup env true).all (fun e => !e.isMutating)) = true ∧
    StartupEffect.revertCheckbox ∈ set_startup env true ∧
    (∃ m, StartupEffect.warnMsg m ∈ set_startup env true) := by
  have hc : (!env.isAdm || !env.frozen) = true := by
    rcases h with h | h <;> simp [h]
  have hl : set_startup env true =
      [StartupEffect.warnMsg
          (if !env.isAdm then "Administrator privileges are required."
           else "This feature only works for the packaged (.exe) application."),
       StartupEffect.revertCheckbox] := by
    simp [set_startup, hc]
  refine ⟨by rw [hl]; rfl,
          by rw [hl]; exact List.Mem.tail _ (List.Mem.head _),
          ⟨_, by rw [hl]; exact List.Mem.head _⟩⟩

/-- Claim C8 witness: a non-admin invocation from the packaged binary. -/
theorem c8_enable_requires_admin_and_frozen_witness :
    ((set_startup c8demoEnv true).all (fun e => !e.isMutating)) = true ∧
    StartupEffect.revertCheckbox ∈ set_startup c8demoEnv true ∧
    (∃ m, StartupEffect.warnMsg m ∈ set_startup c8demoEnv true) :=
  c8_enable_requires_admin_and_frozen c8demoEnv (Or.inl rfl)

/-- Claim C9: a fresh start with no settings file leaves
`first_run_completed` false after load, shows the first-run message exactly
once and persists a file with `first_run_completed=true`; a second launch
loading that file shows no message. -/
theorem c9_first_run_message_once :
    firstRunFlag (load_settings defaultSettingsMW FileState.absent) = false ∧
    (launch defaultSettingsMW FileState.absent).messageCount = 1 ∧
    jLookup ((launch defaultSettingsMW FileState.absent).savedFile.getD [])
      "first_run_completed" = some (JVal.bool true) ∧
    (launch defaultSettingsMW
      (FileState.present (launch defaultSettingsMW FileState.absent).savedFile)).messageCount
      = 0 :=
  ⟨rfl, rfl, rfl, rfl⟩

/-- Claim C10: the visibility dict emitted by the settings dialog's Apply is
total: its keys are exactly the nine element keys in construction order and
every key is bound to the boolean state of its checkbox. -/
theorem c10_apply_emits_total_visibility (checked : String → Bool) (k : String)
    (hk : k ∈ visibility_checkbox_keys) :
    (apply_settings_visibility checked).map Prod.fst = visibility_checkbox_keys ∧
    jLookup (apply_settings_visibility checked) k = some (JVal.bool (checked k)) := by
  constructor
  · rfl
  · exact Lemmas.jLookup_mapped_keys _ _ _ hk

/-- Claim C10 witness: the all-checked dialog state at key `gpu_vram`. -/
theorem c10_apply_emits_total_visibility_witness :
    (apply_settings_visibility (fun _ => true)).map Prod.fst = visibility_checkbox_keys ∧
    jLookup (apply_settings_visibility (fun _ => true)) "gpu_vram"
      = some (JVal.bool true) :=
  c10_apply_emits_total_visibility (fun _ => true) "gpu_vram" (by decide)
